import Mathlib

/-!
Verification of the `rust-p2p-example` node (`src/main.rs`) against its
natural-language specification.

The program is a libp2p node: `main` builds a swarm with a floodsub
behaviour, starts listening, subscribes to the fixed topic, and then runs
an infinite `tokio::select!` loop over three event sources (a stdin line,
an item from the internal reply channel, a swarm event).  We embed the
loop body shallowly: each `select!` firing is a value of `SelectFired`,
and one loop iteration is the pure function `loopStep`, which either
produces the list of observable actions of that iteration or panics
(terminating the process), exactly mirroring the `.expect` calls in the
source.

Rust strings are embedded as `List Char`; `str::starts_with` is
`List.isPrefixOf`.

The gossip router itself (libp2p's Floodsub) is outside this repository,
so it is modelled from the specification (§4.3) below, in the
`GossipRouter` namespace.
-/

namespace P2P

/-- A Rust `String` / `&str`, embedded as its character sequence. -/
abbrev RStr := List Char

/-- Modelled from the spec: `consts::TOPIC`, the single fixed gossip topic
used for all application traffic (the `consts` module is not part of the
provided sources; the spec fixes a single topic). -/
def TOPIC : String := "recipes"

/-- Modelled from the spec (§3, §6): an application `Recipe` record as
carried inside a `SyncResponse` (`models::Recipe` is not part of the
provided sources). -/
structure Recipe where
  id : String
  name : String
  ingredients : List String
  instructions : String
  public : Bool
deriving DecidableEq, Repr

/-- Modelled from the spec (§3): `ListMode`, distinguishing locally
authored recipes from all known recipes. -/
inductive ListMode
  | ALL
  | LOCAL
deriving DecidableEq, Repr

/-- Modelled from the spec (§3, §6): the internal reply value
(`models::ListResponse`) placed on the reply queue by the swarm handler:
a `SyncResponse` `\x7b receiver, mode, data \x7d`. -/
structure Response where
  receiver : String
  mode : ListMode
  data : List Recipe
deriving DecidableEq, Repr

/-- JSON string literal (quotes around the raw text; escaping of special
characters inside field values is not relied on by any theorem). -/
def jstr (s : String) : String := "\"" ++ s ++ "\""

/-- JSON array of strings. -/
def jstrList (l : List String) : String :=
  "[" ++ String.intercalate "," (l.map jstr) ++ "]"

/-- Modelled from the spec (§6): the wire encoding of one `Recipe`. -/
def encodeRecipe (r : Recipe) : String :=
  "\x7b" ++ jstr "id" ++ ":" ++ jstr r.id ++ "," ++
  jstr "name" ++ ":" ++ jstr r.name ++ "," ++
  jstr "ingredients" ++ ":" ++ jstrList r.ingredients ++ "," ++
  jstr "instructions" ++ ":" ++ jstr r.instructions ++ "," ++
  jstr "public" ++ ":" ++ (if r.public then "true" else "false") ++ "\x7d"

/-- Modelled from the spec (§6): the wire encoding of a `SyncResponse`. -/
def encodeResponse (r : Response) : String :=
  "\x7b" ++ jstr "receiver" ++ ":" ++ jstr r.receiver ++ "," ++
  jstr "mode" ++ ":" ++
  (match r.mode with
    | ListMode.ALL => jstr "ListAllResponse"
    | ListMode.LOCAL => jstr "ListLocalResponse") ++ "," ++
  jstr "data" ++ ":" ++
  "[" ++ String.intercalate "," (r.data.map encodeRecipe) ++ "]" ++ "\x7d"

/-- `serde_json::to_string(&resp)` — a `Result<String, _>`.  For the
plain record `Response` (strings, booleans, sequences) serialization
always succeeds, so the embedding returns `Except.ok` of the encoding;
the error arm of the `Result` is still matched on at the call site in
`loopStep`, exactly as `main.rs:75` does. -/
def serde_json_to_string (r : Response) : Except String String :=
  Except.ok (encodeResponse r)

/-- The observable actions a loop iteration (or `main`'s initialization)
can perform, one constructor per call site in `main.rs`. -/
inductive Action
  /-- `info!("Peer Id: ...")` (main.rs:29). -/
  | logPeerId
  /-- `Swarm::listen_on(...)` (main.rs:48). -/
  | listenOn
  /-- `swarm.behaviour_mut().flood_sub.subscribe(TOPIC.clone())` (main.rs:56). -/
  | subscribe (topic : String)
  /-- `swarm.behaviour_mut().flood_sub.publish(TOPIC.clone(), json)` (main.rs:76-79). -/
  | publish (topic : String) (payload : String)
  /-- `handle_list_peers(&mut swarm)` (main.rs:82). -/
  | handleListPeers
  /-- `handle_create_recipe(cmd)` (main.rs:83). -/
  | handleCreateRecipe (cmd : RStr)
  /-- `handle_publish_recipe(cmd)` (main.rs:84). -/
  | handlePublishRecipe (cmd : RStr)
  /-- `handle_list_recipes(cmd, &mut swarm)` (main.rs:85). -/
  | handleListRecipes (cmd : RStr)
  /-- `error!("unknown command: ...")` (main.rs:86). -/
  | logUnknownCommand (line : RStr)
deriving DecidableEq, Repr

/-- The handler chosen for one input line by the `match line.as_str()`
dispatch (main.rs:81-87): an exact-equality arm for `"ls p"`, then three
`starts_with` guard arms in source order, then the fallthrough. -/
inductive Command
  | listPeers
  | createRecipe (cmd : RStr)
  | publishRecipe (cmd : RStr)
  | listRecipes (cmd : RStr)
  | unknown (line : RStr)
deriving DecidableEq, Repr

/-- Embedding of the dispatch `match` in `main.rs:81-87`.  Rust `match`
arms with guards are tried top to bottom, so the embedding is the
corresponding nested conditional. -/
def dispatch (line : RStr) : Command :=
  if line = "ls p".toList then Command.listPeers
  else if "create r".toList.isPrefixOf line then Command.createRecipe line
  else if "publish r".toList.isPrefixOf line then Command.publishRecipe line
  else if "ls r".toList.isPrefixOf line then Command.listRecipes line
  else Command.unknown line

/-- The actions performed for an `EventType::Input(line)` event: exactly
one handler call (or one unknown-command error report). -/
def commandActions (line : RStr) : List Action :=
  match dispatch line with
  | Command.listPeers => [Action.handleListPeers]
  | Command.createRecipe c => [Action.handleCreateRecipe c]
  | Command.publishRecipe c => [Action.handlePublishRecipe c]
  | Command.listRecipes c => [Action.handleListRecipes c]
  | Command.unknown l => [Action.logUnknownCommand l]

/-- Which `tokio::select!` arm fired in one iteration (main.rs:65-69),
with the value that arm received:
* `stdinLine r` — `stdin.next_line()` completed with `r : io::Result<Option<String>>`;
* `fromReplyQueue r` — `response_rcv.recv()` completed with `r : Option<Response>`;
* `swarmEvent` — `handle_swarm_event(...)` completed (its value is
  discarded: the arm binds `_` and yields `evt = None`). -/
inductive SelectFired
  | stdinLine (r : Except String (Option RStr))
  | fromReplyQueue (r : Option Response)
  | swarmEvent
deriving Repr

/-- The outcome of one loop iteration: either the iteration ran to
completion performing `acts` and the loop continues, or an `.expect`
panicked with the given message, terminating the process. -/
inductive StepOutcome
  | next (acts : List Action)
  | panicked (msg : String)
deriving DecidableEq, Repr

/-- Embedding of one iteration of the `loop` in `main.rs:60-90`: the
fired `select!` arm is turned into `Option<EventType>` (panicking where
the source calls `.expect`), and the `if let Some(event)` dispatch is
applied. -/
def loopStep : SelectFired → StepOutcome
  | SelectFired.stdinLine (Except.error _) => StepOutcome.panicked "can get line"
  | SelectFired.stdinLine (Except.ok none) => StepOutcome.panicked "can read line from stdin"
  | SelectFired.stdinLine (Except.ok (some line)) => StepOutcome.next (commandActions line)
  | SelectFired.fromReplyQueue none => StepOutcome.panicked "response exists"
  | SelectFired.fromReplyQueue (some resp) =>
      match serde_json_to_string resp with
      | Except.error _ => StepOutcome.panicked "can jsonify response"
      | Except.ok json => StepOutcome.next [Action.publish TOPIC json]
  | SelectFired.swarmEvent => StepOutcome.next []

/-- The actions of one iteration (empty if the iteration panicked). -/
def stepActions (f : SelectFired) : List Action :=
  match loopStep f with
  | StepOutcome.next acts => acts
  | StepOutcome.panicked _ => []

/-- The actions performed by the loop on a finite schedule of `select!`
firings, consuming exactly one firing per iteration and stopping at the
first panic. -/
def loopTrace : List SelectFired → List Action
  | [] => []
  | f :: fs =>
      match loopStep f with
      | StepOutcome.next acts => acts ++ loopTrace fs
      | StepOutcome.panicked _ => []

/-- Whether (and with which message) the loop terminates by panic on a
finite schedule of firings; `none` means every iteration completed. -/
def loopPanic : List SelectFired → Option String
  | [] => none
  | f :: fs =>
      match loopStep f with
      | StepOutcome.next _ => loopPanic fs
      | StepOutcome.panicked m => some m

/-- The actions `main` performs before entering the loop
(main.rs:29-59, in source order): log the peer id, start listening,
subscribe to the fixed topic. -/
def initActions : List Action :=
  [Action.logPeerId, Action.listenOn, Action.subscribe TOPIC]

/-- The full action trace of `main` on a finite schedule of firings:
initialization, then the loop. -/
def mainTrace (fires : List SelectFired) : List Action :=
  initActions ++ loopTrace fires

end P2P

namespace GossipRouter

/-- A peer identifier, an opaque comparable token (spec §3). -/
abbrev PeerId := Nat

/-- Modelled from the spec (§3): a `GossipMessage`
`\x7b origin, sequence, topic, payload \x7d`; `(origin, sequence)` is the
deduplication key.  The gossip router is libp2p's Floodsub, which is not
part of the provided sources, so the whole `GossipRouter` namespace is
modelled from spec §4.3. -/
structure GossipMessage where
  origin : PeerId
  sequence : Nat
  topic : String
  payload : List Nat
deriving DecidableEq, Repr

/-- Modelled from the spec (§3, §4.3): the router state — the `SeenSet`
of already-seen `(origin, sequence)` keys, the currently connected peers
(the active fanout set), and the locally subscribed topics. -/
structure RouterState where
  seen : List (PeerId × Nat)
  peers : List PeerId
  subscribed : List String
deriving DecidableEq, Repr

/-- An externally observable effect of `on_receive`: a forward of the
message to a connected peer, or a local delivery of the payload to the
application layer. -/
inductive RouterAction
  | forward (dest : PeerId) (m : GossipMessage)
  | deliverLocal (payload : List Nat)
deriving DecidableEq, Repr

/-- Modelled from the spec (§4.3): `on_receive(from, message)` — if
`(origin, sequence)` is already in the SeenSet, discard (idempotent
no-op); otherwise insert it, forward to every connected peer except
`from`, and, if locally subscribed to the topic, deliver the payload to
the application layer. -/
def on_receive (st : RouterState) (src : PeerId) (m : GossipMessage) :
    RouterState × List RouterAction :=
  if (m.origin, m.sequence) ∈ st.seen then (st, [])
  else
    ({ st with seen := (m.origin, m.sequence) :: st.seen },
      ((st.peers.filter (fun p => p != src)).map (fun p => RouterAction.forward p m))
        ++ (if m.topic ∈ st.subscribed then [RouterAction.deliverLocal m.payload] else []))

/-- Deliver the same message once per listed sender, in order,
accumulating the actions of every call. -/
def deliverAll (st : RouterState) (senders : List PeerId) (m : GossipMessage) :
    RouterState × List RouterAction :=
  match senders with
  | [] => (st, [])
  | s :: rest =>
      let r1 := on_receive st s m
      let r2 := deliverAll r1.1 rest m
      (r2.1, r1.2 ++ r2.2)

/-- Is this action a local delivery? -/
def isDeliver : RouterAction → Bool
  | RouterAction.deliverLocal _ => true
  | RouterAction.forward _ _ => false

/-- Is this action a forward to peer `p`? -/
def isForwardTo (p : PeerId) : RouterAction → Bool
  | RouterAction.forward q _ => q == p
  | RouterAction.deliverLocal _ => false

/-- Number of local deliveries among the actions. -/
def deliverCount (acts : List RouterAction) : Nat :=
  acts.countP isDeliver

/-- Number of forwards to peer `p` among the actions. -/
def forwardCountTo (p : PeerId) (acts : List RouterAction) : Nat :=
  acts.countP (isForwardTo p)

end GossipRouter

namespace P2P

/-- A line that begins with `"create r"` takes the `create r` guard arm,
whatever its suffix. -/
lemma dispatch_create_append (s : RStr) :
    dispatch ("create r".toList ++ s) = Command.createRecipe ("create r".toList ++ s) := by
  simp [dispatch, List.isPrefixOf, List.cons_append]

/-- A line that begins with `"publish r"` takes the `publish r` guard
arm, whatever its suffix. -/
lemma dispatch_publish_append (s : RStr) :
    dispatch ("publish r".toList ++ s) = Command.publishRecipe ("publish r".toList ++ s) := by
  simp [dispatch, List.isPrefixOf, List.cons_append]

/-- A line that begins with `"ls r"` takes the `ls r` guard arm,
whatever its suffix. -/
lemma dispatch_lsr_append (s : RStr) :
    dispatch ("ls r".toList ++ s) = Command.listRecipes ("ls r".toList ++ s) := by
  simp [dispatch, List.isPrefixOf, List.cons_append]

/-- A line that strictly extends `"ls p"` matches no arm: the first arm
requires exact equality and no guard prefix matches. -/
lemma dispatch_lsp_extended (s : RStr) (h : s ≠ []) :
    dispatch ("ls p".toList ++ s) = Command.unknown ("ls p".toList ++ s) := by
  simp [dispatch, List.isPrefixOf, List.cons_append, h]

/-- A line matching none of the four arms falls through to the
unknown-command arm. -/
lemma dispatch_unknown (line : RStr) (h1 : line ≠ "ls p".toList)
    (h2 : "create r".toList.isPrefixOf line = false)
    (h3 : "publish r".toList.isPrefixOf line = false)
    (h4 : "ls r".toList.isPrefixOf line = false) :
    dispatch line = Command.unknown line := by
  unfold dispatch
  rw [if_neg h1, if_neg (by simp only [h2]; decide),
    if_neg (by simp only [h3]; decide), if_neg (by simp only [h4]; decide)]

/-- The per-line actions for a `"create r"`-prefixed line. -/
lemma commandActions_create (s : RStr) :
    commandActions ("create r".toList ++ s) =
      [Action.handleCreateRecipe ("create r".toList ++ s)] := by
  unfold commandActions
  rw [dispatch_create_append s]

/-- The per-line actions for a `"publish r"`-prefixed line. -/
lemma commandActions_publish (s : RStr) :
    commandActions ("publish r".toList ++ s) =
      [Action.handlePublishRecipe ("publish r".toList ++ s)] := by
  unfold commandActions
  rw [dispatch_publish_append s]

/-- The per-line actions for an `"ls r"`-prefixed line. -/
lemma commandActions_lsr (s : RStr) :
    commandActions ("ls r".toList ++ s) =
      [Action.handleListRecipes ("ls r".toList ++ s)] := by
  unfold commandActions
  rw [dispatch_lsr_append s]

/-- The per-line actions for an unrecognized line. -/
lemma commandActions_unknown (line : RStr) (h1 : line ≠ "ls p".toList)
    (h2 : "create r".toList.isPrefixOf line = false)
    (h3 : "publish r".toList.isPrefixOf line = false)
    (h4 : "ls r".toList.isPrefixOf line = false) :
    commandActions line = [Action.logUnknownCommand line] := by
  unfold commandActions
  rw [dispatch_unknown line h1 h2 h3 h4]

/-- C3: for every user input line, the event loop dispatches exactly per
the command surface (main.rs:81-87): the exact line `"ls p"` invokes the
list-peers handler; a line starting with `"create r"` invokes the
create-recipe handler; a line starting with `"publish r"` invokes the
publish-recipe handler; a line starting with `"ls r"` — including
`"ls r local"` — invokes the list-recipes handler. -/
theorem c3_command_dispatch :
    loopStep (SelectFired.stdinLine (Except.ok (some "ls p".toList))) =
      StepOutcome.next [Action.handleListPeers]
    ∧ (∀ s : RStr,
        loopStep (SelectFired.stdinLine (Except.ok (some ("create r".toList ++ s)))) =
          StepOutcome.next [Action.handleCreateRecipe ("create r".toList ++ s)])
    ∧ (∀ s : RStr,
        loopStep (SelectFired.stdinLine (Except.ok (some ("publish r".toList ++ s)))) =
          StepOutcome.next [Action.handlePublishRecipe ("publish r".toList ++ s)])
    ∧ (∀ s : RStr,
        loopStep (SelectFired.stdinLine (Except.ok (some ("ls r".toList ++ s)))) =
          StepOutcome.next [Action.handleListRecipes ("ls r".toList ++ s)])
    ∧ loopStep (SelectFired.stdinLine (Except.ok (some "ls r local".toList))) =
        StepOutcome.next [Action.handleListRecipes "ls r local".toList] := by
  refine ⟨rfl, ?_, ?_, ?_, by decide⟩
  · intro s
    exact congrArg StepOutcome.next (commandActions_create s)
  · intro s
    exact congrArg StepOutcome.next (commandActions_publish s)
  · intro s
    exact congrArg StepOutcome.next (commandActions_lsr s)

/-- C9: command recognition is prefix matching for `"create r"`,
`"publish r"` and `"ls r"` (any suffix still reaches that handler), but
exact matching for `"ls p"`: any strict extension of `"ls p"` is an
unknown command. -/
theorem c9_prefix_vs_exact :
    (∀ s : RStr, s ≠ [] →
      dispatch ("ls p".toList ++ s) = Command.unknown ("ls p".toList ++ s))
    ∧ (∀ s : RStr,
        dispatch ("create r".toList ++ s) = Command.createRecipe ("create r".toList ++ s))
    ∧ (∀ s : RStr,
        dispatch ("publish r".toList ++ s) = Command.publishRecipe ("publish r".toList ++ s))
    ∧ (∀ s : RStr,
        dispatch ("ls r".toList ++ s) = Command.listRecipes ("ls r".toList ++ s)) :=
  ⟨dispatch_lsp_extended, dispatch_create_append, dispatch_publish_append, dispatch_lsr_append⟩

/-- Witness for C9 at the concrete line `"ls p x"` (the suffix `" x"`). -/
theorem c9_prefix_vs_exact_witness :
    (" x".toList ≠ ([] : RStr))
    ∧ dispatch ("ls p".toList ++ " x".toList) = Command.unknown ("ls p".toList ++ " x".toList) :=
  ⟨by decide, c9_prefix_vs_exact.1 " x".toList (by decide)⟩

/-- C5: an input line that is not a recognized command (not `"ls p"` and
not starting with `"create r"`, `"publish r"` or `"ls r"`) is reported
as an unknown-command error and the loop continues with the next
iteration: the remaining trace and panic behaviour are those of the rest
of the schedule. -/
theorem c5_unknown_command_continues (line : RStr) (fs : List SelectFired)
    (h1 : line ≠ "ls p".toList)
    (h2 : "create r".toList.isPrefixOf line = false)
    (h3 : "publish r".toList.isPrefixOf line = false)
    (h4 : "ls r".toList.isPrefixOf line = false) :
    loopTrace (SelectFired.stdinLine (Except.ok (some line)) :: fs) =
      Action.logUnknownCommand line :: loopTrace fs
    ∧ loopPanic (SelectFired.stdinLine (Except.ok (some line)) :: fs) = loopPanic fs := by
  have hd := commandActions_unknown line h1 h2 h3 h4
  constructor
  · show commandActions line ++ loopTrace fs = _
    rw [hd]
    rfl
  · rfl

/-- Witness for C5 at the concrete unrecognized line `"hello"` with an
empty remaining schedule. -/
theorem c5_unknown_command_continues_witness :
    ("hello".toList ≠ "ls p".toList)
    ∧ loopTrace [SelectFired.stdinLine (Except.ok (some "hello".toList))] =
        [Action.logUnknownCommand "hello".toList]
    ∧ loopPanic [SelectFired.stdinLine (Except.ok (some "hello".toList))] = none :=
  ⟨by decide,
    (c5_unknown_command_continues "hello".toList []
      (by decide) (by decide) (by decide) (by decide)).1,
    (c5_unknown_command_continues "hello".toList []
      (by decide) (by decide) (by decide) (by decide)).2⟩

/-- C6: each loop iteration consumes exactly one fired event from one
source: when the head event completes with actions `acts`, the trace of
the whole schedule is `acts` followed by the trace of the remaining
schedule — the iteration contributes only its own event's actions and
leaves every other queued event to later iterations. -/
theorem c6_one_event_per_iteration (f : SelectFired) (fs : List SelectFired)
    (acts : List Action) (h : loopStep f = StepOutcome.next acts) :
    loopTrace (f :: fs) = acts ++ loopTrace fs
    ∧ loopPanic (f :: fs) = loopPanic fs
    ∧ acts = stepActions f := by
  refine ⟨?_, ?_, ?_⟩ <;> simp [loopTrace, loopPanic, stepActions, h]

/-- Witness for C6 at a concrete swarm-event iteration. -/
theorem c6_one_event_per_iteration_witness :
    loopStep SelectFired.swarmEvent = StepOutcome.next []
    ∧ loopTrace [SelectFired.swarmEvent, SelectFired.swarmEvent] =
        [] ++ loopTrace [SelectFired.swarmEvent]
    ∧ loopPanic [SelectFired.swarmEvent, SelectFired.swarmEvent] =
        loopPanic [SelectFired.swarmEvent]
    ∧ ([] : List Action) = stepActions SelectFired.swarmEvent :=
  ⟨rfl,
    (c6_one_event_per_iteration SelectFired.swarmEvent [SelectFired.swarmEvent] [] rfl).1,
    (c6_one_event_per_iteration SelectFired.swarmEvent [SelectFired.swarmEvent] [] rfl).2.1,
    (c6_one_event_per_iteration SelectFired.swarmEvent [SelectFired.swarmEvent] [] rfl).2.2⟩

/-- C7: when stdin reaches end-of-input, `next_line()` yields
`Ok(None)`, the `.expect("can read line from stdin")` panics, and the
process terminates: the loop performs no further action on any remaining
schedule. -/
theorem c7_eof_terminates (fs : List SelectFired) :
    loopStep (SelectFired.stdinLine (Except.ok none)) =
      StepOutcome.panicked "can read line from stdin"
    ∧ loopPanic (SelectFired.stdinLine (Except.ok none) :: fs) =
        some "can read line from stdin"
    ∧ loopTrace (SelectFired.stdinLine (Except.ok none) :: fs) = [] :=
  ⟨rfl, rfl, rfl⟩

/-- C4: every item dequeued from the internal reply queue is serialized
with `serde_json::to_string` and published back through the gossip
router on the fixed topic, and the iteration does nothing else. -/
theorem c4_response_serialized_published (r : Response) (fs : List SelectFired) :
    loopStep (SelectFired.fromReplyQueue (some r)) =
      StepOutcome.next [Action.publish TOPIC (encodeResponse r)]
    ∧ serde_json_to_string r = Except.ok (encodeResponse r)
    ∧ loopTrace (SelectFired.fromReplyQueue (some r) :: fs) =
        Action.publish TOPIC (encodeResponse r) :: loopTrace fs :=
  ⟨rfl, rfl, rfl⟩

/-- C8: before the loop processes any event, `main` has already
subscribed to the fixed gossip topic: the subscribe action is among the
initialization actions, and the trace of any run is those initialization
actions followed by the loop's actions. -/
theorem c8_subscribe_before_loop :
    Action.subscribe TOPIC ∈ initActions
    ∧ ∀ fires : List SelectFired, mainTrace fires = initActions ++ loopTrace fires :=
  ⟨by simp [initActions], fun _ => rfl⟩

/-- C2 fails on the code as written: a failure while receiving from the
internal reply queue (`recv()` yielding `None`) hits
`.expect("response exists")`, which panics and terminates the loop. -/
theorem c2_counterexample :
    loopStep (SelectFired.fromReplyQueue none) = StepOutcome.panicked "response exists"
    ∧ loopPanic [SelectFired.fromReplyQueue none] = some "response exists"
    ∧ loopTrace [SelectFired.fromReplyQueue none] = [] :=
  ⟨rfl, rfl, rfl⟩

/-- C2 (amended): an iteration of the event loop panics — terminating
the process — exactly when its event is an I/O error on stdin,
end-of-input on stdin, a receive failure on the internal reply queue, or
a response whose JSON serialization fails; every other event (a
successfully read line, a response that serializes, a swarm wake-up) is
processed without terminating the loop. -/
theorem c2_panic_exactly_on_failures (f : SelectFired) :
    (∃ m, loopStep f = StepOutcome.panicked m) ↔
      ((∃ e, f = SelectFired.stdinLine (Except.error e))
        ∨ f = SelectFired.stdinLine (Except.ok none)
        ∨ f = SelectFired.fromReplyQueue none
        ∨ (∃ r e, f = SelectFired.fromReplyQueue (some r)
            ∧ serde_json_to_string r = Except.error e)) := by
  cases f with
  | stdinLine r =>
      cases r with
      | error e => simp [loopStep]
      | ok o => cases o <;> simp [loopStep]
  | fromReplyQueue r =>
      cases r with
      | none => simp [loopStep]
      | some resp => simp [loopStep, serde_json_to_string]
  | swarmEvent => simp [loopStep]

/-- C10: only reply-queue (Response) events make the loop body publish:
no action of an input-line iteration is a publish, and a swarm-event
iteration performs no action at all in the dispatch match. -/
theorem c10_publish_only_from_response :
    (∀ (line : RStr) (t payload : String),
      Action.publish t payload ∉ stepActions (SelectFired.stdinLine (Except.ok (some line))))
    ∧ stepActions SelectFired.swarmEvent = [] := by
  constructor
  · intro line t payload
    cases h : dispatch line <;>
      simp [stepActions, loopStep, commandActions, h]
  · rfl

end P2P

namespace GossipRouter

/-- Receiving an already-seen message is an idempotent no-op. -/
lemma on_receive_seen (st : RouterState) (src : PeerId) (m : GossipMessage)
    (h : (m.origin, m.sequence) ∈ st.seen) : on_receive st src m = (st, []) := by
  simp [on_receive, h]

/-- Once the message key is in the SeenSet, any further deliveries, from
any senders, change nothing and produce no action. -/
lemma deliverAll_seen (st : RouterState) (senders : List PeerId) (m : GossipMessage)
    (h : (m.origin, m.sequence) ∈ st.seen) : deliverAll st senders m = (st, []) := by
  induction senders with
  | nil => rfl
  | cons s rest ih =>
      simp [deliverAll, on_receive_seen st s m h, ih]

/-- The actions of delivering a fresh message once from `s0` and then
arbitrarily many further times: the forwards of the first call (to every
connected peer except `s0`) and, if subscribed, one local delivery —
nothing more. -/
lemma deliverAll_fresh (st : RouterState) (s0 : PeerId) (rest : List PeerId)
    (m : GossipMessage) (h : (m.origin, m.sequence) ∉ st.seen) :
    (deliverAll st (s0 :: rest) m).2 =
      ((st.peers.filter (fun p => p != s0)).map (fun p => RouterAction.forward p m))
        ++ (if m.topic ∈ st.subscribed then [RouterAction.deliverLocal m.payload] else []) := by
  have h1 : on_receive st s0 m =
      ({ st with seen := (m.origin, m.sequence) :: st.seen },
        ((st.peers.filter (fun p => p != s0)).map (fun p => RouterAction.forward p m))
          ++ (if m.topic ∈ st.subscribed then [RouterAction.deliverLocal m.payload] else [])) := by
    simp [on_receive, h]
  have h2 : deliverAll { st with seen := (m.origin, m.sequence) :: st.seen } rest m =
      ({ st with seen := (m.origin, m.sequence) :: st.seen }, []) :=
    deliverAll_seen _ rest m (List.mem_cons_self _ _)
  simp [deliverAll, h1, h2]

/-- Counting forwards to `p` over the forward fanout list is counting
`p` in the underlying peer list. -/
lemma countP_forward_fanout (peers : List PeerId) (p : PeerId) (m : GossipMessage) :
    (peers.map (fun q => RouterAction.forward q m)).countP (isForwardTo p) =
      peers.count p := by
  rw [List.countP_map]
  rfl

/-- No forward action is a local delivery. -/
lemma countP_deliver_fanout (peers : List PeerId) (m : GossipMessage) :
    (peers.map (fun q => RouterAction.forward q m)).countP isDeliver = 0 := by
  rw [List.countP_map]
  exact congrFun List.countP_false peers

/-- C1 (amended): delivering a fresh message M to `on_receive` any
number of times `N ≥ 1`, from possibly different senders, with the local
node subscribed to M's topic and a duplicate-free connected-peer set,
yields exactly one local delivery, exactly one forward to each
then-connected peer other than the first call's sender, no forward at
all to that first sender, and never more than one forward to any peer
(no peer receives M twice with the same `(origin, sequence)`). -/
theorem c1_dedup_idempotence (st : RouterState) (s0 : PeerId) (rest : List PeerId)
    (m : GossipMessage)
    (hfresh : (m.origin, m.sequence) ∉ st.seen)
    (hsub : m.topic ∈ st.subscribed)
    (hnodup : st.peers.Nodup) :
    deliverCount (deliverAll st (s0 :: rest) m).2 = 1
    ∧ (∀ p, p ∈ st.peers → p ≠ s0 →
        forwardCountTo p (deliverAll st (s0 :: rest) m).2 = 1)
    ∧ (∀ p, forwardCountTo p (deliverAll st (s0 :: rest) m).2 ≤ 1)
    ∧ forwardCountTo s0 (deliverAll st (s0 :: rest) m).2 = 0 := by
  rw [deliverAll_fresh st s0 rest m hfresh, if_pos hsub]
  have hnd : (st.peers.filter (fun p => p != s0)).Nodup := List.Nodup.filter _ hnodup
  refine ⟨?_, ?_, ?_, ?_⟩
  · unfold deliverCount
    rw [List.countP_append, countP_deliver_fanout]
    rfl
  · intro p hp hps
    unfold forwardCountTo
    rw [List.countP_append, countP_forward_fanout]
    have hmem : p ∈ st.peers.filter (fun q => q != s0) := by
      simp [List.mem_filter, hp, hps]
    rw [List.count_eq_one_of_mem hnd hmem]
    rfl
  · intro p
    unfold forwardCountTo
    rw [List.countP_append, countP_forward_fanout]
    have hc : (st.peers.filter (fun q => q != s0)).count p ≤ 1 :=
      List.nodup_iff_count_le_one.mp hnd p
    have hz : List.countP (isForwardTo p) [RouterAction.deliverLocal m.payload] = 0 := rfl
    omega
  · unfold forwardCountTo
    rw [List.countP_append, countP_forward_fanout]
    have hz : s0 ∉ st.peers.filter (fun q => q != s0) := by
      simp [List.mem_filter]
    rw [List.count_eq_zero.mpr hz]
    rfl

/-- Witness for C1 (amended) at a concrete fresh message, subscribed
state with peers `[5]`, first sender `7`, second sender `8`. -/
theorem c1_dedup_idempotence_witness :
    (((1 : PeerId), (0 : Nat)) ∉ (RouterState.mk [] [5] ["recipes"]).seen)
    ∧ ("recipes" ∈ (RouterState.mk [] [5] ["recipes"]).subscribed)
    ∧ (RouterState.mk [] [5] ["recipes"]).peers.Nodup
    ∧ (deliverCount
        (deliverAll (RouterState.mk [] [5] ["recipes"]) [7, 8]
          (GossipMessage.mk 1 0 "recipes" [])).2 = 1
      ∧ (∀ p, p ∈ (RouterState.mk [] [5] ["recipes"]).peers → p ≠ 7 →
          forwardCountTo p
            (deliverAll (RouterState.mk [] [5] ["recipes"]) [7, 8]
              (GossipMessage.mk 1 0 "recipes" [])).2 = 1)
      ∧ (∀ p, forwardCountTo p
          (deliverAll (RouterState.mk [] [5] ["recipes"]) [7, 8]
            (GossipMessage.mk 1 0 "recipes" [])).2 ≤ 1)
      ∧ forwardCountTo 7
          (deliverAll (RouterState.mk [] [5] ["recipes"]) [7, 8]
            (GossipMessage.mk 1 0 "recipes" [])).2 = 0) :=
  ⟨by decide, by decide, by decide,
    c1_dedup_idempotence (RouterState.mk [] [5] ["recipes"]) 7 [8]
      (GossipMessage.mk 1 0 "recipes" []) (by decide) (by decide) (by decide)⟩

/-- C1 as literally stated fails on the router model: when the first
sender is itself a then-connected peer, it receives no forward at all
(forwarding excludes the sender), so "exactly one forward to each
then-connected peer" is violated — here peer `5` is connected, the
message is delivered locally exactly once, but peer `5` receives zero
forwards. -/
theorem c1_counterexample :
    (5 : PeerId) ∈ (RouterState.mk [] [5] ["recipes"]).peers
    ∧ deliverCount
        (deliverAll (RouterState.mk [] [5] ["recipes"]) [5, 6]
          (GossipMessage.mk 1 0 "recipes" [])).2 = 1
    ∧ forwardCountTo 5
        (deliverAll (RouterState.mk [] [5] ["recipes"]) [5, 6]
          (GossipMessage.mk 1 0 "recipes" [])).2 = 0 := by
  refine ⟨by decide, by decide, by decide⟩

end GossipRouter
